import Mathlib

/-!
Verification of the `mirugai` settings module (`src/mirugai/settings.py`).

The module declares a `Settings` record with five fields, populated by
layering hard-coded defaults, key/value pairs from an optional env file,
and process environment variables (in increasing priority), then running
three field validators.  We embed the module shallowly: filesystem paths
are lists of components, the filesystem is a list of entries with a kind
(regular file or directory), and construction is a pure function from the
module location, the filesystem, the env-file pairs and the environment
variables to `Except` of a validation-error list or a `Settings` value.
-/

namespace Mirugai

/-- A filesystem path, as its list of components from the root. -/
abbrev FsPath := List String

/-- Kind of a filesystem entry: a regular file or a directory. -/
inductive FileKind where
  | file
  | dir
deriving DecidableEq, Repr

/-- One entry of the modelled filesystem: a path together with its kind. -/
structure FsEntry where
  path : FsPath
  kind : FileKind
deriving DecidableEq, Repr

/-- The filesystem, as the list of entries that exist on disk. -/
abbrev FileSystem := List FsEntry

/-- `Path.exists()` of the embedding: the path occurs among the entries,
whatever its kind. -/
def FileSystem.existsPath (fs : FileSystem) (p : FsPath) : Bool :=
  fs.any (fun e => e.path == p)

/-- Python `str.upper` on one character, for the ASCII range the module uses. -/
def pyUpperChar (c : Char) : Char :=
  if 'a' ≤ c ∧ c ≤ 'z' then Char.ofNat (c.toNat - 32) else c

/-- Python `str.upper`, mapped over the characters of the string. -/
def pyUpper (s : String) : String :=
  String.mk (s.data.map pyUpperChar)

/-- Python `str.strip`: drop leading and trailing whitespace. -/
def pyStrip (s : String) : String :=
  String.mk (((s.data.dropWhile Char.isWhitespace).reverse.dropWhile
    Char.isWhitespace).reverse)

/-- Split a character list at `/` separators, accumulating the current
component in reverse. -/
def splitSlash (cs : List Char) (cur : List Char) : List (List Char) :=
  match cs with
  | [] => [cur.reverse]
  | c :: rest =>
    if c = '/' then cur.reverse :: splitSlash rest []
    else splitSlash rest (c :: cur)

/-- Parse a POSIX path string into its non-empty components. -/
def parsePath (s : String) : FsPath :=
  ((splitSlash s.data []).filter (fun c => c ≠ [])).map String.mk

/-- Render a path back to its POSIX string (`str` of a `Path`). -/
def renderPath (p : FsPath) : String :=
  p.foldl (fun acc c => acc ++ "/" ++ c) ""

/-- A raised `ValueError`, carrying its argument tuple.  The module's
validators raise `ValueError` with one argument, except for the
`log_level` validator which (as written) passes two. -/
structure ValueError where
  args : List String
deriving DecidableEq, Repr

/-- `get_default_root_dir`: `Path(__file__).resolve().parent.parent`, two
directory levels above the module's own file. -/
def get_default_root_dir (moduleFile : FsPath) : FsPath :=
  moduleFile.dropLast.dropLast

/-- Validator `validate_str_not_empty` on `app_name`: fail when the
whitespace-trimmed value is empty, otherwise pass the value through. -/
def validate_str_not_empty (v : String) : Except ValueError String :=
  if pyStrip v = "" then Except.error { args := ["app_name must not be empty"] }
  else Except.ok v

/-- Validator `validate_log_level`: the upper-cased value must be one of the
five level names; otherwise raise `ValueError` with the two arguments the
source passes (the string literal ends after `ERROR`, and `"CRITICAL"` is a
second argument). -/
def validate_log_level (v : String) : Except ValueError String :=
  if ["DEBUG", "INFO", "WARNING", "ERROR", "CRITICAL"].contains (pyUpper v) then
    Except.ok v
  else
    Except.error
      { args := ["log_level must be one of DEBUG, INFO, WARNING, ERROR", "CRITICAL"] }

/-- Validator `validate_path_exists` on `root_dir`: fail when the path does
not exist on the modelled filesystem, with a message naming the path. -/
def validate_path_exists (fs : FileSystem) (v : FsPath) : Except ValueError FsPath :=
  if fs.existsPath v then Except.ok v
  else Except.error { args := [renderPath v ++ " does not exist"] }

/-- The validated `Settings` record with its five fields. -/
structure Settings where
  app_name : String
  app_tagline : String
  root_dir : FsPath
  app_logo_image : FsPath
  log_level : String
deriving DecidableEq, Repr

/-- The draft record before validation, with the same five fields. -/
structure RawSettings where
  app_name : String
  app_tagline : String
  root_dir : FsPath
  app_logo_image : FsPath
  log_level : String
deriving DecidableEq, Repr

/-- A field-level validation failure, naming the offending field and the
`ValueError` its validator raised. -/
structure ValidationError where
  fieldName : String
  err : ValueError
deriving DecidableEq, Repr

/-- Case-insensitive lookup of a field name among key/value pairs, as the
settings framework matches env-file keys and environment variables against
field names. -/
def lookupCI (kvs : List (String × String)) (name : String) : Option String :=
  (kvs.find? (fun kv => pyUpper kv.fst == pyUpper name)).map Prod.snd

/-- Resolve one string field: process environment variables override the
env-file pairs, which override the hard-coded default. -/
def resolveStrField (envVars fileVals : List (String × String))
    (name dflt : String) : String :=
  match lookupCI envVars name with
  | some v => v
  | none =>
    match lookupCI fileVals name with
    | some v => v
    | none => dflt

/-- Resolve one path field with the same priority order, parsing an
override string into a path. -/
def resolvePathField (envVars fileVals : List (String × String))
    (name : String) (dflt : FsPath) : FsPath :=
  match lookupCI envVars name with
  | some v => parsePath v
  | none =>
    match lookupCI fileVals name with
    | some v => parsePath v
    | none => dflt

/-- Assemble the draft record by layering defaults, env-file pairs and
environment variables.  The defaults are those of the `Settings` class:
`app_name = "mirugai"`, `app_tagline = "Let\x27s make some clams"`,
`root_dir = get_default_root_dir()`, `app_logo_image =
get_default_root_dir() / "logo.jpg"` (note: the default factory calls
`get_default_root_dir()` itself, it does not read the resolved `root_dir`
field), `log_level = "INFO"`. -/
def buildRaw (moduleFile : FsPath) (fileVals envVars : List (String × String)) :
    RawSettings :=
  { app_name := resolveStrField envVars fileVals "app_name" "mirugai"
    app_tagline := resolveStrField envVars fileVals "app_tagline" "Let\x27s make some clams"
    root_dir := resolvePathField envVars fileVals "root_dir" (get_default_root_dir moduleFile)
    app_logo_image := resolvePathField envVars fileVals "app_logo_image"
      (get_default_root_dir moduleFile ++ ["logo.jpg"])
    log_level := resolveStrField envVars fileVals "log_level" "INFO" }

/-- Run the three field validators on a draft record and collect the
failures in field-declaration order. -/
def fieldErrors (fs : FileSystem) (r : RawSettings) : List ValidationError :=
  (match validate_str_not_empty r.app_name with
   | Except.error e => [{ fieldName := "app_name", err := e }]
   | Except.ok _ => []) ++
  (match validate_path_exists fs r.root_dir with
   | Except.error e => [{ fieldName := "root_dir", err := e }]
   | Except.ok _ => []) ++
  (match validate_log_level r.log_level with
   | Except.error e => [{ fieldName := "log_level", err := e }]
   | Except.ok _ => [])

/-- Validate a draft record: if any validator failed, construction fails as
a whole with the collected errors; otherwise all five fields become the
validated `Settings` value. -/
def validateRaw (fs : FileSystem) (r : RawSettings) :
    Except (List ValidationError) Settings :=
  if fieldErrors fs r = [] then
    Except.ok
      { app_name := r.app_name
        app_tagline := r.app_tagline
        root_dir := r.root_dir
        app_logo_image := r.app_logo_image
        log_level := r.log_level }
  else Except.error (fieldErrors fs r)

/-- Construct `Settings`: layer the sources into a draft, then validate
every field.  `fileVals` is the list of key/value pairs of the env file
(`[]` when no env file is present); `envVars` the process environment. -/
def buildSettings (moduleFile : FsPath) (fs : FileSystem)
    (fileVals envVars : List (String × String)) :
    Except (List ValidationError) Settings :=
  validateRaw fs (buildRaw moduleFile fileVals envVars)

/-- Equality of `Except` values is decidable when it is so on both sides. -/
instance {ε α : Type} [DecidableEq ε] [DecidableEq α] :
    DecidableEq (Except ε α) := fun a b =>
  match a, b with
  | Except.ok x, Except.ok y =>
    if h : x = y then Decidable.isTrue (by rw [h])
    else Decidable.isFalse (fun hc => h (Except.ok.inj hc))
  | Except.ok _, Except.error _ =>
    Decidable.isFalse (fun hc => Except.noConfusion hc)
  | Except.error _, Except.ok _ =>
    Decidable.isFalse (fun hc => Except.noConfusion hc)
  | Except.error x, Except.error y =>
    if h : x = y then Decidable.isTrue (by rw [h])
    else Decidable.isFalse (fun hc => h (Except.error.inj hc))

/-- C1: with the environment variable `LOG_LEVEL=debug` set and no env file,
construction succeeds and the resulting `log_level` is exactly `"debug"`
(the environment value, original case preserved), not the default `"INFO"`:
process environment variables override the hard-coded defaults. -/
theorem env_var_overrides_default_log_level (moduleFile : FsPath)
    (fs : FileSystem)
    (h : fs.existsPath (get_default_root_dir moduleFile) = true) :
    ∃ s : Settings,
      buildSettings moduleFile fs [] [("LOG_LEVEL", "debug")] = Except.ok s ∧
      s.log_level = "debug" ∧ s.log_level ≠ "INFO" := by
  have hb : buildRaw moduleFile [] [("LOG_LEVEL", "debug")] =
      { app_name := "mirugai"
        app_tagline := "Let\x27s make some clams"
        root_dir := get_default_root_dir moduleFile
        app_logo_image := get_default_root_dir moduleFile ++ ["logo.jpg"]
        log_level := "debug" } := rfl
  have h2 : validate_path_exists fs (get_default_root_dir moduleFile) =
      Except.ok (get_default_root_dir moduleFile) := by
    unfold validate_path_exists
    simp [h]
  refine ⟨{ app_name := "mirugai"
            app_tagline := "Let\x27s make some clams"
            root_dir := get_default_root_dir moduleFile
            app_logo_image := get_default_root_dir moduleFile ++ ["logo.jpg"]
            log_level := "debug" }, ?_, rfl,
    (by decide : ("debug" : String) ≠ "INFO")⟩
  unfold buildSettings
  rw [hb]
  unfold validateRaw fieldErrors
  rw [h2]
  rfl

/-- Witness for C1 at a concrete module location and filesystem. -/
theorem env_var_overrides_default_log_level_witness :
    ∃ s : Settings,
      buildSettings ["proj", "mirugai", "settings.py"]
        [{ path := ["proj"], kind := FileKind.dir }] []
        [("LOG_LEVEL", "debug")] = Except.ok s ∧
      s.log_level = "debug" ∧ s.log_level ≠ "INFO" :=
  env_var_overrides_default_log_level ["proj", "mirugai", "settings.py"]
    [{ path := ["proj"], kind := FileKind.dir }] (by decide)

/-- C2: on an unsupported level the validator does reject, but the
`ValueError` it raises carries two arguments — the string literal in the
source ends after `ERROR` and `"CRITICAL"` is passed as a second argument —
so the human-readable message is not the single string
`"log_level must be one of DEBUG, INFO, WARNING, ERROR, CRITICAL"`. -/
theorem log_level_error_message_split :
    validate_log_level "TRACE" =
      Except.error
        { args := ["log_level must be one of DEBUG, INFO, WARNING, ERROR",
                   "CRITICAL"] } ∧
    validate_log_level "TRACE" ≠
      Except.error
        { args := ["log_level must be one of DEBUG, INFO, WARNING, ERROR, CRITICAL"] } := by
  constructor
  · rfl
  · decide

/-- C3: every string whose upper-cased form is one of the five level names
passes the `log_level` validator, and the passed-through value is the
original string unchanged (case preserved, not upper-cased). -/
theorem valid_log_level_passes_case_preserved (v : String)
    (h : (["DEBUG", "INFO", "WARNING", "ERROR", "CRITICAL"].contains
      (pyUpper v)) = true) :
    validate_log_level v = Except.ok v := by
  unfold validate_log_level
  rw [if_pos h]

/-- Witness for C3 at the mixed-case input `"Info"`. -/
theorem valid_log_level_passes_case_preserved_witness :
    validate_log_level "Info" = Except.ok "Info" :=
  valid_log_level_passes_case_preserved "Info" (by decide)

/-- C4: an `app_name` whose whitespace-trimmed form is empty fails
validation with the message `"app_name must not be empty"`; one whose
trimmed form is non-empty passes, and the stored value is the input string
unchanged (trimming applies only to the emptiness test). -/
theorem app_name_trimmed_emptiness (v : String) :
    (pyStrip v = "" →
      validate_str_not_empty v =
        Except.error { args := ["app_name must not be empty"] }) ∧
    (pyStrip v ≠ "" → validate_str_not_empty v = Except.ok v) := by
  constructor
  · intro h
    unfold validate_str_not_empty
    rw [if_pos h]
  · intro h
    unfold validate_str_not_empty
    rw [if_neg h]

/-- Witness for C4 at `"\t"` (trimmed-empty, rejected) and `" x "`
(trimmed-non-empty, accepted unchanged). -/
theorem app_name_trimmed_emptiness_witness :
    validate_str_not_empty "\t" =
      Except.error { args := ["app_name must not be empty"] } ∧
    validate_str_not_empty " x " = Except.ok " x " :=
  ⟨(app_name_trimmed_emptiness "\t").1 (by decide),
   (app_name_trimmed_emptiness " x ").2 (by decide)⟩

/-- Inversion: the `app_name` validator only ever passes its input through. -/
theorem validate_str_not_empty_ok_inv (v w : String)
    (h : validate_str_not_empty v = Except.ok w) : w = v := by
  unfold validate_str_not_empty at h
  split at h
  · exact absurd h (by simp)
  · exact (Except.ok.inj h).symm

/-- Inversion: the `log_level` validator only ever passes its input through. -/
theorem validate_log_level_ok_inv (v w : String)
    (h : validate_log_level v = Except.ok w) : w = v := by
  unfold validate_log_level at h
  split at h
  · exact (Except.ok.inj h).symm
  · exact absurd h (by simp)

/-- Inversion: the `root_dir` validator only ever passes its input through. -/
theorem validate_path_exists_ok_inv (fs : FileSystem) (v w : FsPath)
    (h : validate_path_exists fs v = Except.ok w) : w = v := by
  unfold validate_path_exists at h
  split at h
  · exact (Except.ok.inj h).symm
  · exact absurd h (by simp)

/-- Inversion: when no field-level error was collected, each of the three
validators accepted its field unchanged. -/
theorem fieldErrors_nil_inv (fs : FileSystem) (r : RawSettings)
    (h : fieldErrors fs r = []) :
    validate_str_not_empty r.app_name = Except.ok r.app_name ∧
    validate_path_exists fs r.root_dir = Except.ok r.root_dir ∧
    validate_log_level r.log_level = Except.ok r.log_level := by
  unfold fieldErrors at h
  rw [List.append_eq_nil] at h
  obtain ⟨h12, h3⟩ := h
  rw [List.append_eq_nil] at h12
  obtain ⟨h1, h2⟩ := h12
  refine ⟨?_, ?_, ?_⟩
  · cases hva : validate_str_not_empty r.app_name with
    | error e => rw [hva] at h1; exact absurd h1 (by simp)
    | ok w => rw [validate_str_not_empty_ok_inv r.app_name w hva]
  · cases hvr : validate_path_exists fs r.root_dir with
    | error e => rw [hvr] at h2; exact absurd h2 (by simp)
    | ok w => rw [validate_path_exists_ok_inv fs r.root_dir w hvr]
  · cases hvl : validate_log_level r.log_level with
    | error e => rw [hvl] at h3; exact absurd h3 (by simp)
    | ok w => rw [validate_log_level_ok_inv r.log_level w hvl]

/-- Every collected field error names one of the three validated fields. -/
theorem fieldErrors_fieldNames (fs : FileSystem) (r : RawSettings)
    (e : ValidationError) (he : e ∈ fieldErrors fs r) :
    e.fieldName = "app_name" ∨ e.fieldName = "root_dir" ∨
      e.fieldName = "log_level" := by
  unfold fieldErrors at he
  simp only [List.mem_append] at he
  rcases he with (ha | hb) | hc
  · left
    cases hva : validate_str_not_empty r.app_name with
    | error e2 => rw [hva] at ha; simp at ha; rw [ha]
    | ok w => rw [hva] at ha; simp at ha
  · right; left
    cases hvr : validate_path_exists fs r.root_dir with
    | error e2 => rw [hvr] at hb; simp at hb; rw [hb]
    | ok w => rw [hvr] at hb; simp at hb
  · right; right
    cases hvl : validate_log_level r.log_level with
    | error e2 => rw [hvl] at hc; simp at hc; rw [hc]
    | ok w => rw [hvl] at hc; simp at hc

/-- C5: the `root_dir` validator passes exactly when the path exists on the
filesystem; on failure the error message names the offending path; and no
collected field error ever concerns `app_logo_image`, so construction never
fails because of it. -/
theorem root_dir_existence_check (fs : FileSystem) (v : FsPath) :
    (validate_path_exists fs v = Except.ok v ↔ fs.existsPath v = true) ∧
    (fs.existsPath v = false →
      validate_path_exists fs v =
        Except.error { args := [renderPath v ++ " does not exist"] }) ∧
    (∀ (r : RawSettings) (e : ValidationError),
      e ∈ fieldErrors fs r → e.fieldName ≠ "app_logo_image") := by
  refine ⟨?_, ?_, ?_⟩
  · constructor
    · intro hok
      by_cases hc : fs.existsPath v = true
      · exact hc
      · unfold validate_path_exists at hok
        rw [if_neg hc] at hok
        exact absurd hok (by simp)
    · intro hc
      unfold validate_path_exists
      rw [if_pos hc]
  · intro hc
    unfold validate_path_exists
    rw [if_neg (by simp [hc])]
  · intro r e he
    rcases fieldErrors_fieldNames fs r e he with h1 | h2 | h3
    · rw [h1]; decide
    · rw [h2]; decide
    · rw [h3]; decide

/-- Witness for C5 at a concrete filesystem and path. -/
theorem root_dir_existence_check_witness :
    validate_path_exists [] ["missing"] =
      Except.error { args := ["/missing does not exist"] } :=
  (root_dir_existence_check [] ["missing"]).2.1 (by decide)

/-- C6: with no env file and no relevant environment variables, construction
succeeds with exactly the five defaults: `app_name = "mirugai"`,
`app_tagline = "Let\x27s make some clams"`, `root_dir` two directory levels
above the module file, `app_logo_image` that default root joined with
`"logo.jpg"`, and `log_level = "INFO"`. -/
theorem defaults_when_no_sources (moduleFile : FsPath) (fs : FileSystem)
    (h : fs.existsPath (moduleFile.dropLast.dropLast) = true) :
    buildSettings moduleFile fs [] [] =
      Except.ok
        { app_name := "mirugai"
          app_tagline := "Let\x27s make some clams"
          root_dir := moduleFile.dropLast.dropLast
          app_logo_image := moduleFile.dropLast.dropLast ++ ["logo.jpg"]
          log_level := "INFO" } := by
  have hb : buildRaw moduleFile [] [] =
      { app_name := "mirugai"
        app_tagline := "Let\x27s make some clams"
        root_dir := get_default_root_dir moduleFile
        app_logo_image := get_default_root_dir moduleFile ++ ["logo.jpg"]
        log_level := "INFO" } := rfl
  have h2 : validate_path_exists fs (get_default_root_dir moduleFile) =
      Except.ok (get_default_root_dir moduleFile) := by
    unfold validate_path_exists get_default_root_dir
    simp [h]
  unfold buildSettings
  rw [hb]
  unfold validateRaw fieldErrors
  rw [h2]
  rfl

/-- Witness for C6 at a concrete module location and filesystem. -/
theorem defaults_when_no_sources_witness :
    buildSettings ["proj", "mirugai", "settings.py"]
      [{ path := ["proj"], kind := FileKind.dir }] [] [] =
      Except.ok
        { app_name := "mirugai"
          app_tagline := "Let\x27s make some clams"
          root_dir := ["proj"]
          app_logo_image := ["proj", "logo.jpg"]
          log_level := "INFO" } :=
  defaults_when_no_sources ["proj", "mirugai", "settings.py"]
    [{ path := ["proj"], kind := FileKind.dir }] (by decide)

/-- C7 fails as stated: with `ROOT_DIR=/other` set in the environment (and
`/other` existing), construction succeeds with `root_dir = /other`, yet the
defaulted `app_logo_image` is still `/proj/logo.jpg` — the default factory
reads `get_default_root_dir()`, not the resolved `root_dir` field — so
`app_logo_image ≠ root_dir + "logo.jpg"`. -/
theorem logo_default_ignores_root_dir_override :
    buildSettings ["proj", "mirugai", "settings.py"]
      [{ path := ["proj"], kind := FileKind.dir },
       { path := ["other"], kind := FileKind.dir }]
      [] [("ROOT_DIR", "/other")] =
      Except.ok
        { app_name := "mirugai"
          app_tagline := "Let\x27s make some clams"
          root_dir := ["other"]
          app_logo_image := ["proj", "logo.jpg"]
          log_level := "INFO" } ∧
    (["proj", "logo.jpg"] : FsPath) ≠ (["other"] : FsPath) ++ ["logo.jpg"] := by
  constructor
  · rfl
  · decide

/-- C7 amended: when neither the env file nor the environment supplies
`app_logo_image`, the constructed value is the DEFAULT root (two levels
above the module file) joined with `"logo.jpg"`, regardless of any
`root_dir` override. -/
theorem logo_defaults_from_default_root (moduleFile : FsPath)
    (fs : FileSystem) (fileVals envVars : List (String × String))
    (s : Settings)
    (hfile : lookupCI fileVals "app_logo_image" = none)
    (henv : lookupCI envVars "app_logo_image" = none)
    (hok : buildSettings moduleFile fs fileVals envVars = Except.ok s) :
    s.app_logo_image = get_default_root_dir moduleFile ++ ["logo.jpg"] := by
  unfold buildSettings validateRaw at hok
  split at hok
  · have hs := Except.ok.inj hok
    rw [← hs]
    show (buildRaw moduleFile fileVals envVars).app_logo_image = _
    unfold buildRaw resolvePathField
    rw [henv, hfile]
  · exact absurd hok (by simp)

/-- Witness for C7's amended statement at concrete inputs. -/
theorem logo_defaults_from_default_root_witness :
    Settings.app_logo_image
      { app_name := "mirugai"
        app_tagline := "Let\x27s make some clams"
        root_dir := ["proj"]
        app_logo_image := ["proj", "logo.jpg"]
        log_level := "INFO" } =
      get_default_root_dir ["proj", "mirugai", "settings.py"] ++ ["logo.jpg"] :=
  logo_defaults_from_default_root ["proj", "mirugai", "settings.py"]
    [{ path := ["proj"], kind := FileKind.dir }] [] [] _ rfl rfl rfl

/-- C8: validation is atomic.  A successful construction has every field
validated (all three validators accept the stored values and no error was
collected); when any validator fails, the whole construction fails with the
collected error list and no `Settings` value is returned. -/
theorem construction_atomic (fs : FileSystem) (r : RawSettings) :
    (∀ s : Settings, validateRaw fs r = Except.ok s →
      fieldErrors fs r = [] ∧
      validate_str_not_empty s.app_name = Except.ok s.app_name ∧
      validate_path_exists fs s.root_dir = Except.ok s.root_dir ∧
      validate_log_level s.log_level = Except.ok s.log_level) ∧
    (fieldErrors fs r ≠ [] →
      validateRaw fs r = Except.error (fieldErrors fs r) ∧
      ∀ s : Settings, validateRaw fs r ≠ Except.ok s) := by
  constructor
  · intro s hok
    unfold validateRaw at hok
    split at hok
    case isTrue hnil =>
      obtain ⟨h1, h2, h3⟩ := fieldErrors_nil_inv fs r hnil
      have hs := Except.ok.inj hok
      rw [← hs]
      exact ⟨hnil, h1, h2, h3⟩
    case isFalse hne => exact absurd hok (by simp)
  · intro hne
    unfold validateRaw
    rw [if_neg hne]
    exact ⟨rfl, fun s hc => Except.noConfusion hc⟩

/-- Witness for C8 at a concrete draft with an empty `app_name` and a
non-existent `root_dir`: construction fails with the collected errors. -/
theorem construction_atomic_witness :
    validateRaw []
      { app_name := " "
        app_tagline := ""
        root_dir := ["proj"]
        app_logo_image := []
        log_level := "INFO" } =
      Except.error
        (fieldErrors []
          { app_name := " "
            app_tagline := ""
            root_dir := ["proj"]
            app_logo_image := []
            log_level := "INFO" }) :=
  ((construction_atomic []
    { app_name := " "
      app_tagline := ""
      root_dir := ["proj"]
      app_logo_image := []
      log_level := "INFO" }).2 (by decide)).1

/-- C9: construction is deterministic — equal module locations, filesystem
states, env-file contents and environment variables yield equal results;
there is no shared mutable state between constructions. -/
theorem construction_deterministic (m m2 : FsPath) (fs fs2 : FileSystem)
    (fv fv2 ev ev2 : List (String × String))
    (hm : m = m2) (hfs : fs = fs2) (hfv : fv = fv2) (hev : ev = ev2) :
    buildSettings m fs fv ev = buildSettings m2 fs2 fv2 ev2 := by
  rw [hm, hfs, hfv, hev]

/-- Witness for C9 at concrete equal inputs. -/
theorem construction_deterministic_witness :
    buildSettings ["proj", "mirugai", "settings.py"]
      [{ path := ["proj"], kind := FileKind.dir }] [] [] =
    buildSettings ["proj", "mirugai", "settings.py"]
      [{ path := ["proj"], kind := FileKind.dir }] [] [] :=
  construction_deterministic _ _ _ _ _ _ _ _ rfl rfl rfl rfl

/-- C10: the `root_dir` validator checks only existence, not kind — a path
present on the filesystem as a regular (non-directory) file passes the
validator, which returns the path unchanged. -/
theorem path_check_ignores_kind (fs : FileSystem) (v : FsPath) (k : FileKind)
    (h : ({ path := v, kind := k } : FsEntry) ∈ fs) :
    validate_path_exists fs v = Except.ok v := by
  have hex : fs.existsPath v = true := by
    unfold FileSystem.existsPath
    rw [List.any_eq_true]
    exact ⟨{ path := v, kind := k }, h, by simp⟩
  unfold validate_path_exists
  rw [if_pos hex]

/-- Witness for C10 at a regular file. -/
theorem path_check_ignores_kind_witness :
    validate_path_exists [{ path := ["f"], kind := FileKind.file }] ["f"] =
      Except.ok ["f"] :=
  path_check_ignores_kind [{ path := ["f"], kind := FileKind.file }] ["f"]
    FileKind.file (by decide)

end Mirugai
